import Mathlib

/-!
# Verification of the git-replication coordinator and transaction handler

Shallow embedding of the TypeScript sources:
* `src/git-replication-mvp/src/replication.ts` — `ReplicationCoordinator`
  (`getQuorumSize`, `replicateWrite`);
* `src/git-replication-mvp/src/replication-handler.ts` (the storage-backed
  version) — `ReplicationHandler` (`handlePrepare`, `handleCommit`,
  `handleAbort`);
* the storage collaborator `RepoStorage` (`repoExists`, `createRepo`) and
  `GitServer.handleCreateRepo`.

Network nondeterminism (which peer RPCs succeed, the generated transaction
id, timestamps) is supplied as explicit parameters; the per-invocation side
effects of the coordinator are recorded in an explicit trace of prepare,
commit and abort calls issued.
-/

namespace GitRepl

/-- `ReplicationResult` from `replication.ts`: the value returned by
`ReplicationCoordinator.replicateWrite` to its caller. -/
structure ReplicationResult where
  success : Bool
  peersConfirmed : Nat
  peersRequired : Nat
  error : Option String
deriving Repr, DecidableEq

/-- `WriteData` from `replication.ts` (the index-signature extra fields are
not needed by any claim and are omitted). -/
structure WriteData where
  repo_id : String
  ref : String
  commit : String
deriving Repr, DecidableEq

/-- `ReplicationCoordinator.getQuorumSize` from `replication.ts` lines 28–39:
`totalServers = 1 + peerUrls.length`; returns `1` when `totalServers == 2`,
otherwise `Math.ceil(totalServers / 2) - 1`.  For a natural `n`,
`Math.ceil(n / 2) = (n + 1) / 2` in Lean's natural division. -/
def getQuorumSize (peerUrls : List String) : Nat :=
  let totalServers := 1 + peerUrls.length
  if totalServers = 2 then 1 else (totalServers + 1) / 2 - 1

/-- The side-effect trace of one `replicateWrite` invocation: the returned
result plus the peer URLs to which prepare, commit and abort RPCs were
issued (in order).  `replication.ts` contains no abort-sending code, so
`abortsSent` is `[]` on every path of the embedding. -/
structure ReplicateTrace where
  result : ReplicationResult
  preparesSent : List String
  commitsSent : List String
  abortsSent : List String
deriving Repr, DecidableEq

/-- `ReplicationCoordinator.replicateWrite` from `replication.ts` lines
41–82.  `prepareOks` gives, position by position, whether the prepare RPC to
the corresponding peer of `peerUrls` fulfilled (`Promise.allSettled`
outcome); `commitOks` likewise for the phase-2 commit RPCs — the source
awaits `Promise.allSettled(commitPromises)` and discards the outcomes, so
`commitOks` is unused, exactly as in the code.  `writeData` is sent in the
prepare bodies and does not influence control flow. -/
def replicateWrite (peerUrls : List String) (_writeData : WriteData)
    (prepareOks : List Bool) (_commitOks : List Bool) : ReplicateTrace :=
  let quorumSize := getQuorumSize peerUrls
  let successfulPrepares := (prepareOks.filter (fun b => b)).length
  if successfulPrepares < quorumSize then
    { result :=
        { success := false
          peersConfirmed := successfulPrepares
          peersRequired := quorumSize
          error := some ("Quorum not reached. Required: " ++ toString quorumSize
            ++ ", Got: " ++ toString successfulPrepares) }
      preparesSent := peerUrls
      commitsSent := []
      abortsSent := [] }
  else
    let peersToCommit := ((peerUrls.zip prepareOks).filter (fun p => p.2)).map
      (fun p => p.1)
    { result :=
        { success := true
          peersConfirmed := successfulPrepares
          peersRequired := quorumSize
          error := none }
      preparesSent := peerUrls
      commitsSent := peersToCommit
      abortsSent := [] }

/-- Modelled from the spec (§4.1 step 2 and §8): the quorum table the spec
asserts for cluster sizes N = 1..7, used as the reference side of the
refinement claim C1.  Values outside the table are irrelevant (claims
hypothesise N ≤ 7). -/
def specQuorumTable : Nat → Nat
  | 1 => 0
  | 2 => 1
  | 3 => 1
  | 4 => 1
  | 5 => 2
  | 6 => 2
  | 7 => 2
  | _ => 0

/-- Modelled from the spec's stated formula rather than its table: the
quorum values the code's formula `ceil(N/2) − 1` (with the N=2 special
case) actually yields for N = 1..7.  It differs from `specQuorumTable`
only at N = 7, where `ceil(7/2) − 1 = 3`, not 2. -/
def amendedQuorumTable : Nat → Nat
  | 1 => 0
  | 2 => 1
  | 3 => 1
  | 4 => 1
  | 5 => 2
  | 6 => 2
  | 7 => 3
  | _ => 0

/-- Status of a peer-side transaction record
(`replication-handler.ts` line 129). -/
inductive TxStatus where
  | prepared
  | committed
  | aborted
deriving Repr, DecidableEq

/-- The `Transaction` interface of `replication-handler.ts` (storage-backed
version, lines 121–130).  `ref`, `commit` and `operation` come from the
request body unvalidated, so they may be absent at runtime and are
modelled as `Option String`; the three validated fields are stored as the
extracted strings. -/
structure Transaction where
  transaction_id : String
  coordinator_id : String
  repo_id : String
  ref : Option String
  commit : Option String
  operation : Option String
  timestamp : String
  status : TxStatus
deriving Repr, DecidableEq

/-- `Map.get` on the handler's transaction table, modelled as an
association list keyed by transaction id. -/
def mapGet (m : List (String × Transaction)) (k : String) : Option Transaction :=
  match m with
  | [] => none
  | (k2, v) :: rest => if k2 = k then some v else mapGet rest k

/-- `Map.set`: replace the entry for `k` if present, else append. -/
def mapSet (m : List (String × Transaction)) (k : String) (v : Transaction) :
    List (String × Transaction) :=
  match m with
  | [] => [(k, v)]
  | (k2, v2) :: rest =>
      if k2 = k then (k, v) :: rest else (k2, v2) :: mapSet rest k v

/-- JavaScript truthiness check `!x` on an optional string field of
`req.body`: true when the field is absent or the empty string. -/
def falsy : Option String → Bool
  | none => true
  | some s => s = ""

/-- `RepoStorage` state: the set of repository ids that exist on disk,
as a list.  `RepoStorage.repoExists` from `storage.ts` lines 16–24. -/
def repoExists (storage : List String) (repoId : String) : Bool :=
  storage.contains repoId

/-- `RepoStorage.createRepo` from `storage.ts` lines 26–41: throws
`Repository already exists` when the repository is present, otherwise
initialises it (adds it to the set of existing repositories). -/
def createRepo (storage : List String) (repoId : String) :
    Except String (List String) :=
  if repoExists storage repoId then Except.error "Repository already exists"
  else Except.ok (repoId :: storage)

/-- State owned by one `ReplicationHandler` node: its in-memory transaction
table plus the `RepoStorage` collaborator's state. -/
structure HandlerState where
  transactions : List (String × Transaction)
  storage : List String
deriving Repr, DecidableEq

/-- The body of a prepare request as destructured by `handlePrepare`
(line 143); every field may be absent. -/
structure PrepareRequest where
  transaction_id : Option String
  coordinator_id : Option String
  repo_id : Option String
  ref : Option String
  commit : Option String
  operation : Option String
deriving Repr, DecidableEq

/-- The body of a commit or abort request as destructured by
`handleCommit` / `handleAbort` (lines 189, 220). -/
structure CommitAbortRequest where
  transaction_id : Option String
  coordinator_id : Option String
deriving Repr, DecidableEq

/-- The HTTP responses the handler can produce: 200, 400, 404, 500. -/
inductive HandlerResponse where
  | ok (status : String) (transaction_id : String) (server_id : String)
  | badRequest (error : String)
  | notFound (error : String)
  | serverError (error : String) (details : String)
deriving Repr, DecidableEq

/-- `ReplicationHandler.handlePrepare` from `replication-handler.ts` lines
142–186 (storage-backed version).  `now` stands for
`new Date().toISOString()`. -/
def handlePrepare (serverId : String) (st : HandlerState) (now : String)
    (req : PrepareRequest) : HandlerState × HandlerResponse :=
  if falsy req.transaction_id || falsy req.coordinator_id || falsy req.repo_id then
    (st, HandlerResponse.badRequest
      "Missing required fields: transaction_id, coordinator_id, repo_id")
  else
    let tid := req.transaction_id.getD ""
    let cid := req.coordinator_id.getD ""
    let rid := req.repo_id.getD ""
    let storageStep : Except String (List String) :=
      if req.operation = some "create" then
        if repoExists st.storage rid then Except.ok st.storage
        else createRepo st.storage rid
      else Except.ok st.storage
    match storageStep with
    | Except.error e => (st, HandlerResponse.serverError "Prepare failed" e)
    | Except.ok storage2 =>
        let transaction : Transaction :=
          { transaction_id := tid
            coordinator_id := cid
            repo_id := rid
            ref := req.ref
            commit := req.commit
            operation := req.operation
            timestamp := now
            status := TxStatus.prepared }
        ({ transactions := mapSet st.transactions tid transaction
           storage := storage2 },
         HandlerResponse.ok "prepared" tid serverId)

/-- `ReplicationHandler.handleCommit` from `replication-handler.ts` lines
188–217. -/
def handleCommit (serverId : String) (st : HandlerState)
    (req : CommitAbortRequest) : HandlerState × HandlerResponse :=
  if falsy req.transaction_id || falsy req.coordinator_id then
    (st, HandlerResponse.badRequest
      "Missing required fields: transaction_id, coordinator_id")
  else
    let tid := req.transaction_id.getD ""
    match mapGet st.transactions tid with
    | none => (st, HandlerResponse.notFound ("Transaction not found: " ++ tid))
    | some transaction =>
        let transaction2 : Transaction :=
          { transaction with status := TxStatus.committed }
        ({ st with transactions := mapSet st.transactions tid transaction2 },
         HandlerResponse.ok "committed" tid serverId)

/-- `ReplicationHandler.handleAbort` from `replication-handler.ts` lines
219–242: tolerant of a missing transaction — responds 200 `aborted` either
way, creating no record when none exists. -/
def handleAbort (serverId : String) (st : HandlerState)
    (req : CommitAbortRequest) : HandlerState × HandlerResponse :=
  if falsy req.transaction_id || falsy req.coordinator_id then
    (st, HandlerResponse.badRequest
      "Missing required fields: transaction_id, coordinator_id")
  else
    let tid := req.transaction_id.getD ""
    match mapGet st.transactions tid with
    | none => (st, HandlerResponse.ok "aborted" tid serverId)
    | some transaction =>
        let transaction2 : Transaction :=
          { transaction with status := TxStatus.aborted }
        ({ st with transactions := mapSet st.transactions tid transaction2 },
         HandlerResponse.ok "aborted" tid serverId)

/-- The responses of `GitServer.handleCreateRepo`: 201, 400, 409, and the
two 500 paths (replication failure; storage exception). -/
inductive CreateRepoResponse where
  | created (repo_id : String) (replicated : Bool) (peers_confirmed : Nat)
  | missingRepoId
  | alreadyExists
  | replicationFailed (details : Option String)
  | createFailed (details : String)
deriving Repr, DecidableEq

/-- `GitServer.handleCreateRepo` from `server` source lines 100–151.  The
replication coordinator is optional (absent when no peers are configured);
`replication` supplies, as an oracle, the `ReplicationResult` its
`replicateWrite` call would return for this write.  When replication
fails the handler responds 500 and performs no rollback of the local
creation. -/
def handleCreateRepo (storage : List String) (repo_id : Option String)
    (replication : Option ReplicationResult) :
    List String × CreateRepoResponse :=
  if falsy repo_id then (storage, CreateRepoResponse.missingRepoId)
  else
    let rid := repo_id.getD ""
    if repoExists storage rid then (storage, CreateRepoResponse.alreadyExists)
    else
      match createRepo storage rid with
      | Except.error e => (storage, CreateRepoResponse.createFailed e)
      | Except.ok storage2 =>
          match replication with
          | some r =>
              if r.success then
                (storage2, CreateRepoResponse.created rid true r.peersConfirmed)
              else (storage2, CreateRepoResponse.replicationFailed r.error)
          | none => (storage2, CreateRepoResponse.created rid false 0)

/-- The fresh transaction record `handlePrepare` builds from a valid
request (lines 162–171 of `replication-handler.ts`): every field comes
from the request, the timestamp is the call's time, the status is
`prepared`. -/
def prepTx (req : PrepareRequest) (now : String) : Transaction :=
  { transaction_id := req.transaction_id.getD ""
    coordinator_id := req.coordinator_id.getD ""
    repo_id := req.repo_id.getD ""
    ref := req.ref
    commit := req.commit
    operation := req.operation
    timestamp := now
    status := TxStatus.prepared }

/-- Concrete transaction fixture for witness instantiations. -/
def txFixture (s : TxStatus) : Transaction :=
  { transaction_id := "t1"
    coordinator_id := "c1"
    repo_id := "alice/proj"
    ref := none
    commit := none
    operation := none
    timestamp := "T0"
    status := s }

/-- Concrete handler-state fixture: one recorded transaction `t1` in the
given status, with its repository already present in storage. -/
def stFixture (s : TxStatus) : HandlerState :=
  { transactions := [("t1", txFixture s)], storage := ["alice/proj"] }

/-- Concrete commit/abort request fixture. -/
def reqFixture : CommitAbortRequest :=
  { transaction_id := some "t1", coordinator_id := some "c1" }

/-- Concrete prepare request fixture for the `create` operation. -/
def prepReqFixture : PrepareRequest :=
  { transaction_id := some "t1"
    coordinator_id := some "c1"
    repo_id := some "alice/proj"
    ref := some "refs/heads/main"
    commit := some "abc"
    operation := some "create" }

lemma getQuorumSize_eq (peerUrls : List String) :
    getQuorumSize peerUrls =
      (if 1 + peerUrls.length = 2 then 1 else (1 + peerUrls.length + 1) / 2 - 1) := by
  rfl

/-- The quorum never exceeds the number of peers. -/
lemma getQuorumSize_le (peerUrls : List String) :
    getQuorumSize peerUrls ≤ peerUrls.length := by
  rw [getQuorumSize_eq]
  rcases peerUrls with _ | ⟨a, l⟩
  · simp
  · simp only [List.length_cons]
    split
    · omega
    · omega

/-- The list of peers to which commit calls go is a sublist of the peer
list (the filtered zip keeps at most one entry per peer position). -/
lemma commits_sublist (l : List String) (oks : List Bool) :
    (((l.zip oks).filter (fun p => p.2)).map (fun p => p.1)).Sublist l := by
  induction l generalizing oks with
  | nil => simp
  | cons a l ih =>
    cases oks with
    | nil => simp
    | cons b bs =>
      cases b with
      | false =>
        simpa using List.Sublist.cons a (ih bs)
      | true =>
        simpa using List.Sublist.cons₂ a (ih bs)

/-- When every prepare fulfils, the commit fan-out targets every peer. -/
lemma commits_all_true (l : List String) :
    (((l.zip (List.replicate l.length true)).filter (fun p => p.2)).map
      (fun p => p.1)) = l := by
  induction l with
  | nil => rfl
  | cons a l ih => simpa [List.replicate_succ] using ih

/-- Membership in the commit fan-out is exactly being zipped with a
successful prepare outcome. -/
lemma mem_commits_iff (l : List String) (oks : List Bool) (p : String) :
    p ∈ ((l.zip oks).filter (fun q => q.2)).map (fun q => q.1) ↔
      (p, true) ∈ l.zip oks := by
  simp only [List.mem_map, List.mem_filter]
  constructor
  · rintro ⟨⟨x, b⟩, ⟨hmem, hb⟩, rfl⟩
    simp only at hb
    cases b
    · cases hb
    · exact hmem
  · intro h
    exact ⟨(p, true), ⟨h, rfl⟩, rfl⟩

/-- Reading back the key just written returns the written record. -/
lemma mapGet_set_same (m : List (String × Transaction)) (k : String)
    (v : Transaction) : mapGet (mapSet m k v) k = some v := by
  induction m with
  | nil => simp [mapSet, mapGet]
  | cons p rest ih =>
    obtain ⟨k2, v2⟩ := p
    by_cases h : k2 = k
    · simp [mapSet, mapGet, h]
    · simp [mapSet, mapGet, h, ih]

/-- Writing back the record already stored at a key leaves the table
unchanged. -/
lemma mapSet_get_same (m : List (String × Transaction)) (k : String)
    (v : Transaction) (h : mapGet m k = some v) : mapSet m k v = m := by
  induction m with
  | nil => simp [mapGet] at h
  | cons p rest ih =>
    obtain ⟨k2, v2⟩ := p
    by_cases hk : k2 = k
    · subst hk
      simp only [mapGet, if_true, eq_self_iff_true, Option.some.injEq] at h
      simp [mapSet, h]
    · simp only [mapGet, if_neg hk] at h
      simp [mapSet, hk, ih h]

/-- Re-setting a record's status to the value it already holds is the
identity. -/
lemma tx_set_status_self (tx : Transaction) (s : TxStatus)
    (h : tx.status = s) : ({ tx with status := s }) = tx := by
  cases tx
  simp_all

/-- A just-created repository exists. -/
lemma repoExists_cons_self (storage : List String) (rid : String) :
    repoExists (rid :: storage) rid = true := by
  simp [repoExists]

/-- On a request that passes validation, `handlePrepare` overwrites the
transaction-table entry for the request's id with the fresh `prepared`
record and performs the create-if-absent storage mutation exactly when the
operation is `create` and the repository does not yet exist. -/
lemma handlePrepare_success_eq (serverId : String) (st : HandlerState)
    (now : String) (req : PrepareRequest)
    (hft : falsy req.transaction_id = false)
    (hfc : falsy req.coordinator_id = false)
    (hfr : falsy req.repo_id = false) :
    handlePrepare serverId st now req =
      ({ transactions :=
          mapSet st.transactions (req.transaction_id.getD "") (prepTx req now)
         storage :=
          if req.operation = some "create" ∧
              repoExists st.storage (req.repo_id.getD "") = false
            then (req.repo_id.getD "") :: st.storage else st.storage },
       HandlerResponse.ok "prepared" (req.transaction_id.getD "") serverId) := by
  by_cases hop : req.operation = some "create"
  · by_cases hex : repoExists st.storage (req.repo_id.getD "") = true
    · simp [handlePrepare, hft, hfc, hfr, hop, hex, prepTx]
    · simp only [Bool.not_eq_true] at hex
      simp [handlePrepare, hft, hfc, hfr, hop, hex, createRepo, prepTx]
  · simp [handlePrepare, hft, hfc, hfr, hop, prepTx]

section Claims

/-- C1, counterexample: at cluster size N = 7 (six configured peers) the
code's `getQuorumSize` returns `ceil(7/2) − 1 = 3`, while the spec's table
says N=7→2; the claim's table is wrong at its last entry (the spec's own
formula also yields 3 there). -/
theorem C1_spec_table_wrong_at_seven :
    getQuorumSize ["p1", "p2", "p3", "p4", "p5", "p6"] = 3 ∧
    specQuorumTable (1 + 6) = 2 := by
  decide

/-- C1, amended: for every cluster size N in \x7b1,…,7\x7d, where N = 1 +
number of configured peer URLs, `getQuorumSize` returns N=1→0, N=2→1,
N=3→1, N=4→1, N=5→2, N=6→2, and N=7→3 (not 2 as the spec's table says:
`ceil(7/2) − 1 = 3`). -/
theorem C1_quorum_matches_amended_table (peerUrls : List String)
    (h : peerUrls.length ≤ 6) :
    getQuorumSize peerUrls = amendedQuorumTable (1 + peerUrls.length) := by
  rw [getQuorumSize_eq]
  generalize peerUrls.length = n at h ⊢
  interval_cases n <;> decide

/-- Witness for the amended C1 at a concrete 7-server cluster (6 peers). -/
theorem C1_quorum_matches_amended_table_witness :
    getQuorumSize ["p1", "p2", "p3", "p4", "p5", "p6"] = amendedQuorumTable 7 :=
  C1_quorum_matches_amended_table ["p1", "p2", "p3", "p4", "p5", "p6"] (by decide)

/-- C2 (code evaluated at the failing input): with five peers (N = 6,
quorum = 2) and exactly one successful prepare, `replicateWrite` returns
`success = false` with `peersConfirmed = 1`, `peersRequired = 2`, yet
issues no abort call at all — `replication.ts` contains no abort-sending
code, contradicting the claim (and the repository's own README and
architecture document, which say an abort is sent to every peer that
succeeded at prepare when quorum is not reached). -/
theorem C2_quorum_failure_sends_no_aborts :
    (replicateWrite ["p1", "p2", "p3", "p4", "p5"]
        ⟨"alice/proj", "refs/heads/main", "initial"⟩
        [true, false, false, false, false] []).result.success = false ∧
    (replicateWrite ["p1", "p2", "p3", "p4", "p5"]
        ⟨"alice/proj", "refs/heads/main", "initial"⟩
        [true, false, false, false, false] []).result.peersConfirmed = 1 ∧
    (replicateWrite ["p1", "p2", "p3", "p4", "p5"]
        ⟨"alice/proj", "refs/heads/main", "initial"⟩
        [true, false, false, false, false] []).result.peersRequired = 2 ∧
    (replicateWrite ["p1", "p2", "p3", "p4", "p5"]
        ⟨"alice/proj", "refs/heads/main", "initial"⟩
        [true, false, false, false, false] []).abortsSent = [] :=
  ⟨rfl, rfl, rfl, rfl⟩

/-- C4: whenever quorum is reached, `replicateWrite` succeeds and commit
calls go exactly to the peers whose prepare fulfilled (never to one whose
prepare failed), at most one commit call per peer when peer URLs are
distinct; in particular when every prepare fulfils, `peersConfirmed`
equals the number of peers and the commit fan-out is exactly the peer
list, one call per peer. -/
theorem C4_commits_exactly_prepared_peers (peerUrls : List String)
    (w : WriteData) (prepareOks cOks : List Bool)
    (hlen : prepareOks.length = peerUrls.length)
    (hq : getQuorumSize peerUrls ≤ (prepareOks.filter (fun b => b)).length) :
    (replicateWrite peerUrls w prepareOks cOks).result.success = true ∧
    (∀ p, p ∈ (replicateWrite peerUrls w prepareOks cOks).commitsSent ↔
        (p, true) ∈ peerUrls.zip prepareOks) ∧
    (peerUrls.Nodup →
      ∀ p, ((replicateWrite peerUrls w prepareOks cOks).commitsSent.count p) ≤ 1) ∧
    (prepareOks = List.replicate peerUrls.length true →
      (replicateWrite peerUrls w prepareOks cOks).result.peersConfirmed =
          peerUrls.length ∧
      (replicateWrite peerUrls w prepareOks cOks).commitsSent = peerUrls) := by
  have hnot : ¬ ((prepareOks.filter (fun b => b)).length < getQuorumSize peerUrls) := by
    omega
  refine ⟨?_, ?_, ?_, ?_⟩
  · simp [replicateWrite, hnot]
  · intro p
    simp only [replicateWrite, hnot, if_false]
    exact mem_commits_iff peerUrls prepareOks p
  · intro hnd p
    simp only [replicateWrite, hnot, if_false]
    calc (((peerUrls.zip prepareOks).filter (fun q => q.2)).map
            (fun q => q.1)).count p
        ≤ peerUrls.count p := (commits_sublist peerUrls prepareOks).count_le p
      _ ≤ 1 := List.nodup_iff_count_le_one.mp hnd p
  · intro hall
    subst hall
    have hlt : ¬ (peerUrls.length < getQuorumSize peerUrls) := by
      have := getQuorumSize_le peerUrls
      omega
    constructor
    · simp [replicateWrite, List.filter_replicate, hlt]
    · simp only [replicateWrite, List.filter_replicate, if_true,
        List.length_replicate, hlt, if_false]
      exact commits_all_true peerUrls

/-- Witness for C4: two peers, both prepares fulfilled. -/
theorem C4_commits_exactly_prepared_peers_witness :
    (replicateWrite ["p1", "p2"] ⟨"u/r", "refs/heads/main", "abc123"⟩
        [true, true] [true, true]).result.success = true ∧
    (∀ p, p ∈ (replicateWrite ["p1", "p2"] ⟨"u/r", "refs/heads/main", "abc123"⟩
        [true, true] [true, true]).commitsSent ↔
        (p, true) ∈ (["p1", "p2"] : List String).zip [true, true]) ∧
    ((["p1", "p2"] : List String).Nodup →
      ∀ p, ((replicateWrite ["p1", "p2"] ⟨"u/r", "refs/heads/main", "abc123"⟩
        [true, true] [true, true]).commitsSent.count p) ≤ 1) ∧
    (([true, true] : List Bool) = List.replicate (["p1", "p2"] : List String).length true →
      (replicateWrite ["p1", "p2"] ⟨"u/r", "refs/heads/main", "abc123"⟩
        [true, true] [true, true]).result.peersConfirmed =
          (["p1", "p2"] : List String).length ∧
      (replicateWrite ["p1", "p2"] ⟨"u/r", "refs/heads/main", "abc123"⟩
        [true, true] [true, true]).commitsSent = ["p1", "p2"]) :=
  C4_commits_exactly_prepared_peers ["p1", "p2"]
    ⟨"u/r", "refs/heads/main", "abc123"⟩ [true, true] [true, true]
    (by decide) (by decide)

/-- C5: once the successful prepares reach quorum, the returned result has
`success = true` no matter what the phase-2 commit outcomes are (the whole
trace is independent of them, since the source discards the settled commit
promises), and no peer receives more commit calls than its occurrences in
the peer list — no commit call is retried. -/
theorem C5_success_independent_of_commit_outcomes (peerUrls : List String)
    (w : WriteData) (prepareOks : List Bool)
    (hq : getQuorumSize peerUrls ≤ (prepareOks.filter (fun b => b)).length)
    (cOks cOks' : List Bool) :
    (replicateWrite peerUrls w prepareOks cOks).result.success = true ∧
    replicateWrite peerUrls w prepareOks cOks =
      replicateWrite peerUrls w prepareOks cOks' ∧
    ∀ p, ((replicateWrite peerUrls w prepareOks cOks).commitsSent.count p) ≤
      peerUrls.count p := by
  have hnot : ¬ ((prepareOks.filter (fun b => b)).length < getQuorumSize peerUrls) := by
    omega
  refine ⟨by simp [replicateWrite, hnot], rfl, ?_⟩
  intro p
  simp only [replicateWrite, hnot, if_false]
  exact (commits_sublist peerUrls prepareOks).count_le p

/-- Witness for C5: two peers, one prepare fulfilled (quorum 1), both
commit outcomes failing in one run and succeeding in the other. -/
theorem C5_success_independent_of_commit_outcomes_witness :
    (replicateWrite ["p1", "p2"] ⟨"u/r", "refs/heads/main", "abc123"⟩
        [true, false] [false, false]).result.success = true ∧
    replicateWrite ["p1", "p2"] ⟨"u/r", "refs/heads/main", "abc123"⟩
        [true, false] [false, false] =
      replicateWrite ["p1", "p2"] ⟨"u/r", "refs/heads/main", "abc123"⟩
        [true, false] [true, true] ∧
    ∀ p, ((replicateWrite ["p1", "p2"] ⟨"u/r", "refs/heads/main", "abc123"⟩
        [true, false] [false, false]).commitsSent.count p) ≤
      (["p1", "p2"] : List String).count p :=
  C5_success_independent_of_commit_outcomes ["p1", "p2"]
    ⟨"u/r", "refs/heads/main", "abc123"⟩ [true, false] (by decide)
    [false, false] [true, true]

/-- C3, counterexample: after prepare then commit, the transaction `t1` is
`committed` (terminal); a subsequent abort nevertheless moves it to
`aborted` — `handleAbort` re-sets the status unconditionally, so a
terminal state does not absorb the opposite operation, refuting the claim
that re-applying commit or abort leaves an already-terminal transaction in
its terminal status. -/
theorem C3_terminal_status_not_sticky :
    ((mapGet ((handleCommit "s1"
        (handlePrepare "s1" ⟨[], []⟩ "T0" prepReqFixture).1
        reqFixture).1).transactions "t1").map Transaction.status =
      some TxStatus.committed) ∧
    ((mapGet ((handleAbort "s1"
        (handleCommit "s1"
          (handlePrepare "s1" ⟨[], []⟩ "T0" prepReqFixture).1
          reqFixture).1
        reqFixture).1).transactions "t1").map Transaction.status =
      some TxStatus.aborted) := by
  constructor <;> rfl

/-- C3, amended: on an existing transaction, commit and abort overwrite
only the status field (the rest of the record is never corrupted);
re-applying the SAME operation once its terminal state is reached is a
strict no-op on the state.  However — as the counterexample shows — the
status is re-set unconditionally, so applying the opposite operation
moves a committed transaction to `aborted` and vice versa: terminal
states are not preserved against the other terminal operation. -/
theorem C3_amended_terminal_idempotence (serverId : String)
    (st : HandlerState) (req : CommitAbortRequest) (tx : Transaction)
    (hft : falsy req.transaction_id = false)
    (hfc : falsy req.coordinator_id = false)
    (hget : mapGet st.transactions (req.transaction_id.getD "") = some tx) :
    (mapGet ((handleCommit serverId st req).1).transactions
        (req.transaction_id.getD "") =
      some ({ tx with status := TxStatus.committed })) ∧
    (mapGet ((handleAbort serverId st req).1).transactions
        (req.transaction_id.getD "") =
      some ({ tx with status := TxStatus.aborted })) ∧
    (tx.status = TxStatus.committed → (handleCommit serverId st req).1 = st) ∧
    (tx.status = TxStatus.aborted → (handleAbort serverId st req).1 = st) := by
  refine ⟨?_, ?_, ?_, ?_⟩
  · simp [handleCommit, hft, hfc, hget, mapGet_set_same]
  · simp [handleAbort, hft, hfc, hget, mapGet_set_same]
  · intro hs
    have htx := tx_set_status_self tx TxStatus.committed hs
    simp [handleCommit, hft, hfc, hget, htx,
      mapSet_get_same st.transactions _ tx hget]
  · intro hs
    have htx := tx_set_status_self tx TxStatus.aborted hs
    simp [handleAbort, hft, hfc, hget, htx,
      mapSet_get_same st.transactions _ tx hget]

/-- Witness for the amended C3 on a committed fixture transaction. -/
theorem C3_amended_terminal_idempotence_witness :
    (mapGet ((handleCommit "s1" (stFixture TxStatus.committed)
        reqFixture).1).transactions (reqFixture.transaction_id.getD "") =
      some ({ txFixture TxStatus.committed with status := TxStatus.committed })) ∧
    (mapGet ((handleAbort "s1" (stFixture TxStatus.committed)
        reqFixture).1).transactions (reqFixture.transaction_id.getD "") =
      some ({ txFixture TxStatus.committed with status := TxStatus.aborted })) ∧
    ((txFixture TxStatus.committed).status = TxStatus.committed →
      (handleCommit "s1" (stFixture TxStatus.committed) reqFixture).1 =
        stFixture TxStatus.committed) ∧
    ((txFixture TxStatus.committed).status = TxStatus.aborted →
      (handleAbort "s1" (stFixture TxStatus.committed) reqFixture).1 =
        stFixture TxStatus.committed) :=
  C3_amended_terminal_idempotence "s1" (stFixture TxStatus.committed)
    reqFixture (txFixture TxStatus.committed) rfl rfl rfl

/-- C6: on a transaction id this node has no record of, with
`transaction_id` and `coordinator_id` present, commit responds 404
not-found and abort responds 200 `aborted`; neither call changes the
node's state (no record is created). -/
theorem C6_unknown_id_commit_fails_abort_succeeds (serverId : String)
    (st : HandlerState) (req : CommitAbortRequest)
    (hft : falsy req.transaction_id = false)
    (hfc : falsy req.coordinator_id = false)
    (hnone : mapGet st.transactions (req.transaction_id.getD "") = none) :
    handleCommit serverId st req =
      (st, HandlerResponse.notFound
        ("Transaction not found: " ++ req.transaction_id.getD "")) ∧
    handleAbort serverId st req =
      (st, HandlerResponse.ok "aborted" (req.transaction_id.getD "") serverId) := by
  constructor
  · simp [handleCommit, hft, hfc, hnone]
  · simp [handleAbort, hft, hfc, hnone]

/-- Witness for C6 on a node with an empty transaction table. -/
theorem C6_unknown_id_commit_fails_abort_succeeds_witness :
    handleCommit "s1" ⟨[], []⟩ reqFixture =
      (⟨[], []⟩, HandlerResponse.notFound
        ("Transaction not found: " ++ reqFixture.transaction_id.getD "")) ∧
    handleAbort "s1" ⟨[], []⟩ reqFixture =
      (⟨[], []⟩, HandlerResponse.ok "aborted"
        (reqFixture.transaction_id.getD "") "s1") :=
  C6_unknown_id_commit_fails_abort_succeeds "s1" ⟨[], []⟩ reqFixture
    rfl rfl rfl

/-- C7: `handlePrepare` responds with a 400 validation error exactly when
`transaction_id`, `coordinator_id` or `repo_id` is missing (falsy); in
that case the node's state — transaction table and storage — is left
untouched; when all three are present the response is 200 `prepared` and
a record with status `prepared` is stored under the transaction id. -/
theorem C7_prepare_validation (serverId : String) (st : HandlerState)
    (now : String) (req : PrepareRequest) :
    ((∃ e, (handlePrepare serverId st now req).2 =
        HandlerResponse.badRequest e) ↔
      (falsy req.transaction_id = true ∨ falsy req.coordinator_id = true ∨
        falsy req.repo_id = true)) ∧
    ((falsy req.transaction_id = true ∨ falsy req.coordinator_id = true ∨
        falsy req.repo_id = true) →
      (handlePrepare serverId st now req).1 = st) ∧
    ((falsy req.transaction_id = false ∧ falsy req.coordinator_id = false ∧
        falsy req.repo_id = false) →
      (handlePrepare serverId st now req).2 =
        HandlerResponse.ok "prepared" (req.transaction_id.getD "") serverId ∧
      (mapGet ((handlePrepare serverId st now req).1).transactions
          (req.transaction_id.getD "")).map Transaction.status =
        some TxStatus.prepared) := by
  by_cases hcond : (falsy req.transaction_id || falsy req.coordinator_id ||
      falsy req.repo_id) = true
  · have hdisj : falsy req.transaction_id = true ∨
        falsy req.coordinator_id = true ∨ falsy req.repo_id = true := by
      simpa [Bool.or_eq_true, or_assoc] using hcond
    have heq : handlePrepare serverId st now req =
        (st, HandlerResponse.badRequest
          "Missing required fields: transaction_id, coordinator_id, repo_id") := by
      simp [handlePrepare, hcond]
    refine ⟨⟨fun _ => hdisj, fun _ => ⟨_, by rw [heq]⟩⟩, fun _ => by rw [heq],
      fun hall => ?_⟩
    obtain ⟨h1, h2, h3⟩ := hall
    simp [h1, h2, h3] at hcond
  · have hall : falsy req.transaction_id = false ∧
        falsy req.coordinator_id = false ∧ falsy req.repo_id = false := by
      simpa [Bool.or_eq_true, Bool.not_eq_true, and_assoc] using hcond
    obtain ⟨h1, h2, h3⟩ := hall
    have heq := handlePrepare_success_eq serverId st now req h1 h2 h3
    refine ⟨⟨fun hex => ?_, fun hdisj => ?_⟩, fun hdisj => ?_, fun _ => ?_⟩
    · obtain ⟨e, he⟩ := hex
      rw [heq] at he
      cases he
    · rcases hdisj with h | h | h <;> simp [h] at h1 h2 h3
    · rcases hdisj with h | h | h <;> simp [h] at h1 h2 h3
    · rw [heq]
      exact ⟨rfl, by simp [mapGet_set_same, prepTx]⟩

/-- C8: a second `handlePrepare` with the same request does not raise —
it responds 200 `prepared` again — and performs no further storage
mutation: the create-if-absent guard sees the repository already present
after the first call, so the storage component is unchanged by the second
call. -/
theorem C8_prepare_idempotent_at_storage (serverId : String)
    (st : HandlerState) (now1 now2 : String) (req : PrepareRequest)
    (hft : falsy req.transaction_id = false)
    (hfc : falsy req.coordinator_id = false)
    (hfr : falsy req.repo_id = false) :
    (handlePrepare serverId ((handlePrepare serverId st now1 req).1)
        now2 req).2 =
      HandlerResponse.ok "prepared" (req.transaction_id.getD "") serverId ∧
    ((handlePrepare serverId ((handlePrepare serverId st now1 req).1)
        now2 req).1).storage = ((handlePrepare serverId st now1 req).1).storage := by
  rw [handlePrepare_success_eq serverId st now1 req hft hfc hfr]
  rw [handlePrepare_success_eq serverId _ now2 req hft hfc hfr]
  refine ⟨rfl, ?_⟩
  by_cases hop : req.operation = some "create"
  · by_cases hex : repoExists st.storage (req.repo_id.getD "") = true
    · simp [hop, hex]
    · simp only [Bool.not_eq_true] at hex
      simp [hop, hex, repoExists_cons_self]
  · simp [hop]

/-- Witness for C8: prepare the same create request twice on an empty
node. -/
theorem C8_prepare_idempotent_at_storage_witness :
    (handlePrepare "s1" ((handlePrepare "s1" ⟨[], []⟩ "T0" prepReqFixture).1)
        "T1" prepReqFixture).2 =
      HandlerResponse.ok "prepared" (prepReqFixture.transaction_id.getD "") "s1" ∧
    ((handlePrepare "s1" ((handlePrepare "s1" ⟨[], []⟩ "T0" prepReqFixture).1)
        "T1" prepReqFixture).1).storage =
      ((handlePrepare "s1" ⟨[], []⟩ "T0" prepReqFixture).1).storage :=
  C8_prepare_idempotent_at_storage "s1" ⟨[], []⟩ "T0" "T1" prepReqFixture
    rfl rfl rfl

/-- C9: when the repository does not yet exist locally, the local create
succeeds, and replication reports failure, `handleCreateRepo` responds
with the 500 replication-failure error while the locally created
repository remains in storage — no rollback of the local write is
performed. -/
theorem C9_replication_failure_no_rollback (storage : List String)
    (rid : String) (r : ReplicationResult)
    (hrid : falsy (some rid) = false)
    (hnew : repoExists storage rid = false)
    (hfail : r.success = false) :
    (handleCreateRepo storage (some rid) (some r)).2 =
      CreateRepoResponse.replicationFailed r.error ∧
    repoExists ((handleCreateRepo storage (some rid) (some r)).1) rid = true := by
  constructor
  · simp [handleCreateRepo, hrid, hnew, createRepo, hfail]
  · simp [handleCreateRepo, hrid, hnew, createRepo, hfail, repoExists_cons_self]

/-- Witness for C9: empty local storage, one-peer cluster whose
replication fails with zero confirmations. -/
theorem C9_replication_failure_no_rollback_witness :
    (handleCreateRepo [] (some "alice/proj")
        (some ⟨false, 0, 1, some "Quorum not reached. Required: 1, Got: 0"⟩)).2 =
      CreateRepoResponse.replicationFailed
        (ReplicationResult.error
          ⟨false, 0, 1, some "Quorum not reached. Required: 1, Got: 0"⟩) ∧
    repoExists ((handleCreateRepo [] (some "alice/proj")
        (some ⟨false, 0, 1, some "Quorum not reached. Required: 1, Got: 0"⟩)).1)
      "alice/proj" = true :=
  C9_replication_failure_no_rollback [] "alice/proj"
    ⟨false, 0, 1, some "Quorum not reached. Required: 1, Got: 0"⟩
    rfl rfl rfl

/-- C10: a valid prepare for a transaction id that already has a record —
in any status, including the terminal `committed` and `aborted` —
replaces the whole record with the fresh one built from this call: status
`prepared`, timestamp the new call's time. -/
theorem C10_reprepare_resets_terminal (serverId : String) (st : HandlerState)
    (now : String) (req : PrepareRequest) (tx0 : Transaction)
    (hft : falsy req.transaction_id = false)
    (hfc : falsy req.coordinator_id = false)
    (hfr : falsy req.repo_id = false)
    (_hold : mapGet st.transactions (req.transaction_id.getD "") = some tx0) :
    mapGet ((handlePrepare serverId st now req).1).transactions
        (req.transaction_id.getD "") = some (prepTx req now) ∧
    (prepTx req now).status = TxStatus.prepared ∧
    (prepTx req now).timestamp = now := by
  rw [handlePrepare_success_eq serverId st now req hft hfc hfr]
  exact ⟨mapGet_set_same st.transactions (req.transaction_id.getD "")
    (prepTx req now), rfl, rfl⟩

/-- Witness for C10: re-prepare of the fixture transaction while it is in
the terminal `committed` status. -/
theorem C10_reprepare_resets_terminal_witness :
    mapGet ((handlePrepare "s1" (stFixture TxStatus.committed) "T1"
        prepReqFixture).1).transactions
        (prepReqFixture.transaction_id.getD "") =
      some (prepTx prepReqFixture "T1") ∧
    (prepTx prepReqFixture "T1").status = TxStatus.prepared ∧
    (prepTx prepReqFixture "T1").timestamp = "T1" :=
  C10_reprepare_resets_terminal "s1" (stFixture TxStatus.committed) "T1"
    prepReqFixture (txFixture TxStatus.committed) rfl rfl rfl rfl

end Claims

end GitRepl
